import Mathlib

/-!
Verification of the `style::color` module of the crossterm fragment
(`src/style/color/color.rs`): the `TerminalColor` facade, its backend
selection, its delegation of `set_fg` / `set_bg` / `reset` to the selected
backend, and the `get_available_color_count` capability probe.

Modelling conventions:
* `Rc<Mutex<ScreenManager>>` is a reference-counted handle; cloning an `Rc`
  yields a handle to the same underlying manager, so a handle is modelled by
  the identity of the manager it designates.
* The trait objects behind `Box<ITerminalColor>` (`AnsiColor`, `WinApiColor`)
  are implemented outside this file's sources; a backend is therefore
  modelled by its variant tag, and a facade method's behaviour is its
  returned facade together with the list of backend invocations it performs,
  each invocation recording the receiver backend and the arguments passed.
* `std::env::var_os("TERM")` is an input: the facade method takes the
  current value of the `TERM` variable as an `Option OsString` parameter.
  The only operation the code applies to an `OsString` is `to_str`, which
  fails exactly on values that are not valid UTF-8, so an `OsString` is
  modelled by whether it decodes, and to what.
* `u16` results (8 and 256, far below 2^16) are carried as `Nat`;
  `io::Result<u16>` becomes `Except IoError Nat`.
-/

/-- The `style::Color` argument type. Modelled from the spec: the `Color`
enum lives in a sibling file not among the provided sources; per the spec it
is a closed set of named variants plus an extension variant carrying a
numeric identifier for extended palettes. The facade only passes `Color`
values through unchanged, so only the shape matters here. -/
inductive Color where
  | black
  | red
  | green
  | yellow
  | blue
  | magenta
  | cyan
  | white
  | reset
  | ansiValue (n : Nat)
deriving DecidableEq, Repr

/-- Identity of the shared `ScreenManager` behind an `Rc<Mutex<ScreenManager>>`
handle. -/
structure ScreenManagerHandle where
  id : Nat
deriving DecidableEq, Repr

/-- `Rc::clone`: produces a handle to the same underlying manager. -/
def ScreenManagerHandle.clone (h : ScreenManagerHandle) : ScreenManagerHandle := h

/-- The `Context` struct, as far as this module uses it: it supplies the
shared screen-manager handle (`context.screen_manager`). -/
structure Context where
  screen_manager : ScreenManagerHandle
deriving DecidableEq, Repr

/-- The two concrete implementations of the `ITerminalColor` trait that this
module can select. Their method bodies live outside the provided sources, so
a trait object is modelled by its variant tag. -/
inductive ITerminalColorImpl where
  | ansiColor
  | winApiColor
deriving DecidableEq, Repr

/-- `AnsiColor::new()` as a trait object. -/
def AnsiColor.new : ITerminalColorImpl := ITerminalColorImpl.ansiColor

/-- `WinApiColor::new()` as a trait object. -/
def WinApiColor.new : ITerminalColorImpl := ITerminalColorImpl.winApiColor

/-- One invocation of a backend (`ITerminalColor`) method: which backend
received the call, and the arguments passed (`Color` where applicable, and
the screen-manager handle the facade passed along). -/
inductive BackendCall where
  | set_fg (backend : ITerminalColorImpl) (c : Color) (screen : ScreenManagerHandle)
  | set_bg (backend : ITerminalColorImpl) (c : Color) (screen : ScreenManagerHandle)
  | reset (backend : ITerminalColorImpl) (screen : ScreenManagerHandle)
deriving DecidableEq, Repr

/-- Interpret a list of backend calls against a shared screen state `σ`,
given an arbitrary semantics `eff` for a single call. An empty call list
leaves any screen state untouched. -/
def applyTrace {σ : Type} (eff : BackendCall → σ → σ) : List BackendCall → σ → σ
  | [], s => s
  | c :: rest, s => applyTrace eff rest (eff c s)

/-- The compile-time platform split (`#[cfg(target_os = "windows")]`),
made explicit as a parameter. -/
inductive Platform where
  | windows
  | notWindows
deriving DecidableEq, Repr

/-- Modelled from the spec: `shared::functions::get_module` is referenced by
`TerminalColor::new` on the Windows path but its definition is not among the
provided sources. Per the spec's selection policy, on platforms offering a
native console attribute API the selector prefers the native-console backend
and falls back to the escape-sequence backend when the native path is
unavailable at runtime; it is total. `nativeAvailable` is the runtime
availability of the native console path. -/
def functions.get_module (nativeAvailable : Bool)
    (winapi_impl : ITerminalColorImpl) (ansi_impl : ITerminalColorImpl) :
    Option ITerminalColorImpl :=
  if nativeAvailable then some winapi_impl else some ansi_impl

/-- The `TerminalColor` struct: an optional selected backend and the shared
screen-manager handle. -/
structure TerminalColor where
  color : Option ITerminalColorImpl
  screen_manager : ScreenManagerHandle
deriving DecidableEq, Repr

/-- `TerminalColor::new(context)`. The `#[cfg]` split on `target_os` and the
runtime availability consulted by `get_module` are explicit parameters. -/
def TerminalColor.new (platform : Platform) (nativeAvailable : Bool)
    (context : Context) : TerminalColor :=
  let color : Option ITerminalColorImpl :=
    match platform with
    | Platform.windows => functions.get_module nativeAvailable WinApiColor.new AnsiColor.new
    | Platform.notWindows => some AnsiColor.new
  { color := color, screen_manager := context.screen_manager.clone }

/-- `TerminalColor::set_fg(color)`: if a backend was selected, call its
`set_fg` with the color and a clone of the shared handle; otherwise do
nothing. Returns the facade after the call together with the backend
invocations performed. -/
def TerminalColor.set_fg (self : TerminalColor) (color : Color) :
    TerminalColor × List BackendCall :=
  match self.color with
  | some terminal_color =>
      (self, [BackendCall.set_fg terminal_color color self.screen_manager.clone])
  | none => (self, [])

/-- `TerminalColor::set_bg(color)`: same shape as `set_fg`, delegating to the
backend's `set_bg`. -/
def TerminalColor.set_bg (self : TerminalColor) (color : Color) :
    TerminalColor × List BackendCall :=
  match self.color with
  | some terminal_color =>
      (self, [BackendCall.set_bg terminal_color color self.screen_manager.clone])
  | none => (self, [])

/-- `TerminalColor::reset()`: delegates to the backend's `reset` with a clone
of the shared handle; no-op when no backend was selected. -/
def TerminalColor.reset (self : TerminalColor) :
    TerminalColor × List BackendCall :=
  match self.color with
  | some terminal_color =>
      (self, [BackendCall.reset terminal_color self.screen_manager.clone])
  | none => (self, [])

/-- An `OsString` as this module observes it: the code applies only
`to_str`, which succeeds exactly on valid-UTF-8 values. -/
inductive OsString where
  | valid (s : String)
  | invalid
deriving DecidableEq, Repr

/-- `OsStr::to_str`: `Some` of the decoded string for valid UTF-8, `None`
otherwise. -/
def OsString.to_str : OsString → Option String
  | OsString.valid s => some s
  | OsString.invalid => none

/-- `str::contains(pattern)` for a literal pattern: substring containment.
For an all-ASCII pattern such as "256color", byte-level containment in valid
UTF-8 coincides with character-level containment, modelled here as
contiguous-sublist containment of the character sequences. -/
def strContains (hay : String) (pat : String) : Bool :=
  decide (List.IsInfix pat.data hay.data)

/-- `std::io::Error`, opaque: the probe never constructs one. -/
inductive IoError where
  | mk
deriving DecidableEq, Repr

/-- `TerminalColor::get_available_color_count(&self)`: reads the `TERM`
environment variable and returns `Ok(256)` when it decodes to a string
containing "256color", `Ok(8)` otherwise (unset, other value, or invalid
UTF-8 via `unwrap_or("")`). The method borrows `self` immutably and never
touches the screen state, so the state-passing embedding returns both
unchanged alongside the `io::Result<u16>`. -/
def TerminalColor.get_available_color_count {σ : Type} (self : TerminalColor)
    (screen : σ) (termVar : Option OsString) :
    TerminalColor × σ × Except IoError Nat :=
  (self, screen,
    Except.ok (match termVar with
      | some val => if strContains (val.to_str.getD "") "256color" then 256 else 8
      | none => 8))

/-- `pub fn color(context) -> Box<TerminalColor>`: the factory. `Box::from`
only moves the value to the heap, so it is the identity here. -/
def color (platform : Platform) (nativeAvailable : Bool) (context : Context) :
    TerminalColor :=
  TerminalColor.new platform nativeAvailable context

/-- One event in the serialized access to the shared `ScreenManager`:
acquiring its exclusive lock, mutating an attribute of the screen state, or
releasing the lock. -/
inductive LockEvent where
  | acquire
  | mutate
  | release
deriving DecidableEq, Repr

/-- Modelled from the spec: the backend method bodies (`AnsiColor`,
`WinApiColor`) and the `ScreenManager` they lock are not among the provided
sources. Per the spec, each backend operation performs exactly one logical
attribute change against the shared screen state, under a scoped exclusive
lock acquired for the duration of that single operation and released on
every exit path. -/
def backendOpEvents (_call : BackendCall) : List LockEvent :=
  [LockEvent.acquire, LockEvent.mutate, LockEvent.release]

/-- The lock/mutation event sequence produced by a list of backend calls. -/
def traceEvents (calls : List BackendCall) : List LockEvent :=
  (calls.map backendOpEvents).flatten

/-- The scoped-lock discipline, checked from `d` current holds of the
exclusive lock: every acquisition happens with no hold outstanding (so holds
never overlap), every mutation happens under a hold, and every hold is
released by the end of the sequence. -/
def lockScoped : List LockEvent → Nat → Bool
  | [], d => d == 0
  | LockEvent.acquire :: rest, d => d == 0 && lockScoped rest 1
  | LockEvent.mutate :: rest, d => d == 1 && lockScoped rest d
  | LockEvent.release :: rest, d => d == 1 && lockScoped rest 0

/-- A concrete facade with no selected backend, for instantiating the
degraded-state results. -/
def sampleFacadeNone : TerminalColor :=
  { color := none, screen_manager := { id := 0 } }

/-- A concrete facade with the ANSI backend selected. -/
def sampleFacadeAnsi : TerminalColor :=
  { color := some ITerminalColorImpl.ansiColor, screen_manager := { id := 7 } }

/-- C1: `get_available_color_count` returns `Ok 256` exactly when the `TERM`
environment variable is set and its value is a string containing the
substring "256color", and returns `Ok 8` in every other case, including
`TERM` unset or set to a value such as "xterm" lacking the marker. -/
theorem get_available_color_count_tiers {σ : Type} (t : TerminalColor)
    (screen : σ) (termVar : Option OsString) :
    (((t.get_available_color_count screen termVar).2.2 = Except.ok 256) ↔
      (∃ s, termVar = some (OsString.valid s) ∧ strContains s "256color" = true)) ∧
    (((t.get_available_color_count screen termVar).2.2 = Except.ok 256) ∨
      ((t.get_available_color_count screen termVar).2.2 = Except.ok 8)) := by
  rcases termVar with _ | v
  · refine ⟨⟨fun h => ?_, fun h => ?_⟩, Or.inr rfl⟩
    · exact absurd h (by simp [TerminalColor.get_available_color_count])
    · obtain ⟨s, hs, _⟩ := h
      exact absurd hs (by simp)
  · rcases v with s | _
    · cases hc : strContains s "256color" with
      | true =>
          refine ⟨⟨fun _ => ⟨s, rfl, hc⟩, fun _ => ?_⟩, Or.inl ?_⟩ <;>
            simp [TerminalColor.get_available_color_count, OsString.to_str, hc]
      | false =>
          refine ⟨⟨fun h => ?_, fun h => ?_⟩, Or.inr ?_⟩
          · exact absurd h
              (by simp [TerminalColor.get_available_color_count, OsString.to_str, hc])
          · obtain ⟨s₂, hs₂, hc₂⟩ := h
            obtain rfl : s = s₂ := by simpa using hs₂
            exact absurd hc₂ (by simp [hc])
          · simp [TerminalColor.get_available_color_count, OsString.to_str, hc]
    · have hc : strContains "" "256color" = false := by decide
      refine ⟨⟨fun h => ?_, fun h => ?_⟩, Or.inr ?_⟩
      · exact absurd h
          (by simp [TerminalColor.get_available_color_count, OsString.to_str, hc])
      · obtain ⟨s₂, hs₂, _⟩ := h
        exact absurd hs₂ (by simp)
      · simp [TerminalColor.get_available_color_count, OsString.to_str, hc]

/-- C2: on a facade with no selected backend, `set_fg`, `set_bg` and `reset`
invoke no backend operation (the invocation trace is empty), leave the
facade and any shared screen state unchanged, and signal no failure: each
call returns normally. -/
theorem no_backend_silent_noop {σ : Type} (t : TerminalColor)
    (h : t.color = none) (c₁ c₂ : Color) (eff : BackendCall → σ → σ) (s : σ) :
    t.set_fg c₁ = (t, []) ∧ t.set_bg c₂ = (t, []) ∧ t.reset = (t, []) ∧
    applyTrace eff (t.set_fg c₁).2 s = s ∧
    applyTrace eff (t.set_bg c₂).2 s = s ∧
    applyTrace eff (t.reset).2 s = s := by
  obtain ⟨co, sm⟩ := t
  obtain rfl : co = none := h
  exact ⟨rfl, rfl, rfl, rfl, rfl, rfl⟩

/-- Witness for C2: the backendless facade, two concrete colors, and an
effect interpretation that would change a `Nat` screen on any call. -/
theorem no_backend_silent_noop_witness :
    sampleFacadeNone.color = none ∧
    (sampleFacadeNone.set_fg Color.red = (sampleFacadeNone, []) ∧
     sampleFacadeNone.set_bg Color.blue = (sampleFacadeNone, []) ∧
     sampleFacadeNone.reset = (sampleFacadeNone, []) ∧
     applyTrace (fun _ (n : Nat) => n + 1) (sampleFacadeNone.set_fg Color.red).2 0 = 0 ∧
     applyTrace (fun _ (n : Nat) => n + 1) (sampleFacadeNone.set_bg Color.blue).2 0 = 0 ∧
     applyTrace (fun _ (n : Nat) => n + 1) (sampleFacadeNone.reset).2 0 = 0) :=
  ⟨rfl, no_backend_silent_noop sampleFacadeNone rfl Color.red Color.blue
    (fun _ (n : Nat) => n + 1) 0⟩

/-- C3: on a facade with a selected backend `b`, `set_fg c` performs exactly
one backend invocation, namely `b`'s `set_fg` with `c` and the facade's
screen-manager handle; symmetrically for `set_bg` and `reset`. -/
theorem backend_delegation (t : TerminalColor) (b : ITerminalColorImpl)
    (h : t.color = some b) (c₁ c₂ : Color) :
    t.set_fg c₁ = (t, [BackendCall.set_fg b c₁ t.screen_manager]) ∧
    t.set_bg c₂ = (t, [BackendCall.set_bg b c₂ t.screen_manager]) ∧
    t.reset = (t, [BackendCall.reset b t.screen_manager]) := by
  obtain ⟨co, sm⟩ := t
  obtain rfl : co = some b := h
  exact ⟨rfl, rfl, rfl⟩

/-- Witness for C3: the ANSI-backed facade with two concrete colors. -/
theorem backend_delegation_witness :
    sampleFacadeAnsi.color = some ITerminalColorImpl.ansiColor ∧
    (sampleFacadeAnsi.set_fg Color.red =
      (sampleFacadeAnsi,
        [BackendCall.set_fg ITerminalColorImpl.ansiColor Color.red
          sampleFacadeAnsi.screen_manager]) ∧
     sampleFacadeAnsi.set_bg Color.blue =
      (sampleFacadeAnsi,
        [BackendCall.set_bg ITerminalColorImpl.ansiColor Color.blue
          sampleFacadeAnsi.screen_manager]) ∧
     sampleFacadeAnsi.reset =
      (sampleFacadeAnsi,
        [BackendCall.reset ITerminalColorImpl.ansiColor
          sampleFacadeAnsi.screen_manager])) :=
  ⟨rfl, backend_delegation sampleFacadeAnsi ITerminalColorImpl.ansiColor rfl
    Color.red Color.blue⟩

/-- C4: the factory `color(context)` always returns the facade built by
`TerminalColor::new`, holding a clone of the context's screen-manager
handle; it is a total function (never fails or panics), and its backend
field is at worst `none`. -/
theorem color_factory (platform : Platform) (native : Bool) (ctx : Context) :
    color platform native ctx = TerminalColor.new platform native ctx ∧
    (color platform native ctx).screen_manager = ctx.screen_manager.clone ∧
    ((∃ b, (color platform native ctx).color = some b) ∨
      (color platform native ctx).color = none) := by
  refine ⟨rfl, ?_, ?_⟩
  · cases platform <;> rfl
  · rcases hco : (color platform native ctx).color with _ | b
    · exact Or.inr rfl
    · exact Or.inl ⟨b, rfl⟩

/-- C5: backend selection at construction is total: on Windows it prefers
the native-console backend when the native path is available and falls back
to the ANSI escape-sequence backend otherwise; on every other platform the
selected backend is always `Some` of the ANSI backend. -/
theorem backend_selection (ctx : Context) (native : Bool) :
    (TerminalColor.new Platform.windows true ctx).color = some WinApiColor.new ∧
    (TerminalColor.new Platform.windows false ctx).color = some AnsiColor.new ∧
    (TerminalColor.new Platform.notWindows native ctx).color = some AnsiColor.new :=
  ⟨rfl, rfl, rfl⟩

/-- C6: the facade's two fields are fixed at construction: `set_fg`,
`set_bg`, `reset` and `get_available_color_count` each return the facade
with its backend field and its screen-manager handle equal to their values
before the call. -/
theorem facade_fields_immutable {σ : Type} (t : TerminalColor) (c₁ c₂ : Color)
    (screen : σ) (termVar : Option OsString) :
    (t.set_fg c₁).1 = t ∧ (t.set_bg c₂).1 = t ∧ (t.reset).1 = t ∧
    (t.get_available_color_count screen termVar).1 = t := by
  obtain ⟨co, sm⟩ := t
  cases co <;> exact ⟨rfl, rfl, rfl, rfl⟩

/-- C7: `get_available_color_count` is a pure query: it returns the facade
and the shared screen state unchanged, and its result depends only on the
`TERM` environment variable, not on the facade instance or the screen
state. -/
theorem get_available_color_count_pure {σ σ₂ : Type} (t t₂ : TerminalColor)
    (screen : σ) (screen₂ : σ₂) (termVar : Option OsString) :
    (t.get_available_color_count screen termVar).1 = t ∧
    (t.get_available_color_count screen termVar).2.1 = screen ∧
    (t.get_available_color_count screen termVar).2.2 =
      (t₂.get_available_color_count screen₂ termVar).2.2 :=
  ⟨rfl, rfl, rfl⟩

/-- C8: with a backend selected, the sequence `set_fg`; `reset`; `set_bg`
performs exactly three attribute mutations of the shared screen state, each
under its own scoped exclusive lock acquisition, with every hold released
and no two holds overlapping. -/
theorem three_scoped_mutations (t : TerminalColor) (b : ITerminalColorImpl)
    (h : t.color = some b) (c₁ c₂ : Color) :
    (traceEvents ((t.set_fg c₁).2 ++ ((t.set_fg c₁).1.reset).2 ++
        (((t.set_fg c₁).1.reset).1.set_bg c₂).2)).count LockEvent.mutate = 3 ∧
    lockScoped (traceEvents ((t.set_fg c₁).2 ++ ((t.set_fg c₁).1.reset).2 ++
        (((t.set_fg c₁).1.reset).1.set_bg c₂).2)) 0 = true := by
  obtain ⟨co, sm⟩ := t
  obtain rfl : co = some b := h
  exact ⟨rfl, rfl⟩

/-- Witness for C8: the ANSI-backed facade with two concrete colors. -/
theorem three_scoped_mutations_witness :
    sampleFacadeAnsi.color = some ITerminalColorImpl.ansiColor ∧
    ((traceEvents ((sampleFacadeAnsi.set_fg Color.red).2 ++
        ((sampleFacadeAnsi.set_fg Color.red).1.reset).2 ++
        (((sampleFacadeAnsi.set_fg Color.red).1.reset).1.set_bg Color.blue).2)).count
        LockEvent.mutate = 3 ∧
     lockScoped (traceEvents ((sampleFacadeAnsi.set_fg Color.red).2 ++
        ((sampleFacadeAnsi.set_fg Color.red).1.reset).2 ++
        (((sampleFacadeAnsi.set_fg Color.red).1.reset).1.set_bg Color.blue).2)) 0 = true) :=
  ⟨rfl, three_scoped_mutations sampleFacadeAnsi ITerminalColorImpl.ansiColor rfl
    Color.red Color.blue⟩

/-- C9: the `io::Result` error branch of `get_available_color_count` is
unreachable: for every environment the result is `Ok`, and a `TERM` value
that is not valid UTF-8 yields the base tier `Ok 8`. -/
theorem get_available_color_count_never_errs {σ : Type} (t : TerminalColor)
    (screen : σ) (termVar : Option OsString) :
    (∃ n, (t.get_available_color_count screen termVar).2.2 = Except.ok n) ∧
    (t.get_available_color_count screen (some OsString.invalid)).2.2 =
      Except.ok 8 := by
  constructor
  · rcases termVar with _ | v
    · exact ⟨8, rfl⟩
    · exact ⟨_, rfl⟩
  · have hc : strContains "" "256color" = false := by decide
    simp [TerminalColor.get_available_color_count, OsString.to_str, hc]

/-- C10: determinism with respect to the environment: two calls observing
the same value (or absence) of the `TERM` variable return equal results,
regardless of the facade instance or screen state they are called on. -/
theorem get_available_color_count_deterministic {σ σ₂ : Type}
    (t t₂ : TerminalColor) (screen : σ) (screen₂ : σ₂)
    (termVar termVar₂ : Option OsString) (h : termVar = termVar₂) :
    (t.get_available_color_count screen termVar).2.2 =
      (t₂.get_available_color_count screen₂ termVar₂).2.2 := by
  cases h
  rfl

/-- Witness for C10: two distinct facades and screen states observing the
same `TERM` value agree on the result. -/
theorem get_available_color_count_deterministic_witness :
    (some (OsString.valid "xterm-256color") : Option OsString) =
      some (OsString.valid "xterm-256color") ∧
    (sampleFacadeNone.get_available_color_count (0 : Nat)
        (some (OsString.valid "xterm-256color"))).2.2 =
      (sampleFacadeAnsi.get_available_color_count (true : Bool)
        (some (OsString.valid "xterm-256color"))).2.2 :=
  ⟨rfl, get_available_color_count_deterministic sampleFacadeNone sampleFacadeAnsi
    (0 : Nat) (true : Bool) (some (OsString.valid "xterm-256color"))
    (some (OsString.valid "xterm-256color")) rfl⟩
